import Mathlib

/-!
Shallow embedding of the orbit-simulation core
(`src/components/orbit/OrbitSimulation.tsx`): the position function
`calculateNewPosition`, the Moon position law of the `Moon` component,
the per-orbit period table `calculateOrbitPeriod`, the trail-buffer tick
of the `Satellite` component, and the ribbon builder
`generateTrailGeometry`.

Real-valued trajectory formulas are embedded over `ℝ`; the trail-buffer
bookkeeping (timestamps, opacities) is embedded over `ℚ`, which models the
exact arithmetic the JavaScript code performs on these small values.
-/

/-- The TypeScript union `'lagrange' | 'earth' | 'moon' | 'none'`. -/
inductive OrbitType where
  | lagrange
  | earth
  | moon
  | none
deriving DecidableEq

/-- `const BASE_ORBITAL_SPEED = 0.0001`. -/
noncomputable def BASE_ORBITAL_SPEED : ℝ := 0.0001

/-- The `Moon` component's position law: `angle = currentTime *
BASE_ORBITAL_SPEED * simulationSpeed`, position `[10·cos angle, 0, 10·sin
angle]`. -/
noncomputable def moonPosition (currentTime simulationSpeed : ℝ) : ℝ × ℝ × ℝ :=
  let angle := currentTime * BASE_ORBITAL_SPEED * simulationSpeed
  (10 * Real.cos angle, 0, 10 * Real.sin angle)

/-- Direct translation of `calculateNewPosition`, including every branch of
the nested switch and both fallback defaults. -/
noncomputable def calculateNewPosition (type : OrbitType) (orbit : String)
    (currentTime simulationSpeed : ℝ) : ℝ × ℝ × ℝ :=
  let angle := currentTime * BASE_ORBITAL_SPEED * simulationSpeed
  let moonAngle := angle
  let moonX := 10 * Real.cos moonAngle
  let moonZ := 10 * Real.sin moonAngle
  match type with
  | OrbitType.lagrange =>
    match orbit with
    | "l1" => (moonX * 0.5, 0, moonZ * 0.5)
    | "l2" => (moonX * 1.2, 0, moonZ * 1.2)
    | "l3" => (-10 * Real.cos moonAngle, 0, -10 * Real.sin moonAngle)
    | "l4" =>
      (10 * Real.cos (moonAngle + Real.pi / 3), 0,
        10 * Real.sin (moonAngle + Real.pi / 3))
    | "l5" =>
      (10 * Real.cos (moonAngle - Real.pi / 3), 0,
        10 * Real.sin (moonAngle - Real.pi / 3))
    | "l1_halo" =>
      (moonX * 0.5 + Real.sin (angle * 2) * 0.5,
        Real.sin (angle * 3) * 0.8,
        moonZ * 0.5 + Real.cos (angle * 2) * 0.5)
    | "l2_halo" =>
      (moonX * 1.2 + Real.sin (angle * 2) * 0.5,
        Real.sin (angle * 3) * 0.8,
        moonZ * 1.2 + Real.cos (angle * 2) * 0.5)
    | "l3_halo" =>
      (-10 * Real.cos moonAngle + Real.sin (angle * 3) * 1.5,
        Real.sin (angle * 3 * 1.2) * 1.0,
        -10 * Real.sin moonAngle + Real.cos (angle * 3) * 1.5)
    | "l4_lissajous" =>
      (10 * Real.cos (moonAngle + Real.pi / 3) + Real.sin (angle * 2 * 0.7) * 1.2,
        Real.sin (angle * 2 * 1.1) * 0.8,
        10 * Real.sin (moonAngle + Real.pi / 3) + Real.sin (angle * 2 * 0.9) * 1.2)
    | "l5_lissajous" =>
      (10 * Real.cos (moonAngle - Real.pi / 3) + Real.sin (angle * 2 * 0.8) * 1.2,
        Real.sin (angle * 2 * 1.2) * 0.8,
        10 * Real.sin (moonAngle - Real.pi / 3) + Real.sin (angle * 2 * 1.0) * 1.2)
    | _ => (5, 0, 0)
  | OrbitType.earth =>
    match orbit with
    | "geo" =>
      (4 * Real.cos (angle * 0.1), 0, 4 * Real.sin (angle * 0.1))
    | "gso_equator" =>
      (4 * Real.cos (angle * 0.1), Real.sin (angle * 0.05) * 0.2,
        4 * Real.sin (angle * 0.1))
    | _ => (4, 0, 0)
  | OrbitType.moon =>
    match orbit with
    | "llo_circular" =>
      (moonX + Real.cos (angle * 5) * 1.5, 0, moonZ + Real.sin (angle * 5) * 1.5)
    | "llo_elliptical" =>
      let moonEccentricity : ℝ := 0.3
      let moonSemiMajorAxis : ℝ := 1.8
      let moonOrbitAngle := angle * 5
      let moonRadius := moonSemiMajorAxis * (1 - moonEccentricity * Real.cos moonOrbitAngle)
      (moonX + moonRadius * Real.cos moonOrbitAngle, 0,
        moonZ + moonRadius * Real.sin moonOrbitAngle)
    | "llo_polar" =>
      (moonX + Real.cos (angle * 5) * 1.5, Real.sin (angle * 5) * 1.5, moonZ)
    | "frozen" =>
      (moonX + Real.cos angle * 2, Real.sin (angle * 0.5) * 0.5,
        moonZ + Real.sin angle * 2)
    | "transfer" =>
      let transferPhase := (Real.sin (angle * 0.05) + 1) / 2
      (moonX * transferPhase, Real.sin (angle * 0.2) * (1 - transferPhase) * 2,
        moonZ * transferPhase)
    | "distant" =>
      (moonX + Real.cos (angle * 0.3) * 3, Real.sin (angle * 0.3) * 2,
        moonZ + Real.sin (angle * 0.3) * 3)
    | _ => (moonX + 1.5, 0, moonZ)
  | OrbitType.none => (5, 0, 0)

/-- Direct translation of `calculateOrbitPeriod` (seconds). -/
def calculateOrbitPeriod (type : OrbitType) (orbit : String) : ℚ :=
  match type with
  | OrbitType.lagrange => 60
  | OrbitType.earth =>
    match orbit with
    | "geo" | "gso_equator" | "gso_mid" => 40
    | "qzo_8" | "qzo_asym" => 30
    | "molniya" => 50
    | _ => 40
  | OrbitType.moon =>
    match orbit with
    | "llo_circular" | "llo_elliptical" | "llo_polar" => 20
    | "frozen" => 30
    | "transfer" => 100
    | "distant" => 40
    | _ => 30
  | OrbitType.none => 40

/-- The `TrailPoint` record (`position`, `timestamp`, `opacity`). -/
structure TrailPoint where
  position : ℚ × ℚ × ℚ
  timestamp : ℚ
  opacity : ℚ
deriving DecidableEq

/-- One `showTrail` tick of the `Satellite` interval: recompute every
retained sample's opacity, filter out samples older than twice the period,
then append the freshly sampled point with opacity `1.0`. -/
def updateTick (prev : List TrailPoint) (currentTime period : ℚ)
    (newPosition : ℚ × ℚ × ℚ) : List TrailPoint :=
  let newPoint : TrailPoint := ⟨newPosition, currentTime, 1⟩
  let updatedTrail := prev.map fun point =>
    { point with
      opacity := max 0 (1 - ((currentTime - point.timestamp) / 1000 - period) / period) }
  let filteredTrail := updatedTrail.filter fun point =>
    decide ((currentTime - point.timestamp) / 1000 ≤ period * 2)
  filteredTrail ++ [newPoint]

/-! ### The ribbon builder `generateTrailGeometry`

The two `Float32Array`s are modelled as total functions `ℕ → ℝ` that start
at the zero function (the arrays are zero-initialized) and receive the
loop's writes via a fold over `List.range (points.length - 1)`.  three.js's
`Vector3.normalize` divides by `this.length() || 1`, i.e. by `1` when the
length is `0`; `normDivisor` captures that guard. -/

/-- three.js `Vector3.length`: `√(x·x + y·y + z·z)`. -/
noncomputable def vlength (v : ℝ × ℝ × ℝ) : ℝ :=
  Real.sqrt (v.1 * v.1 + v.2.1 * v.2.1 + v.2.2 * v.2.2)

/-- The divisor used by three.js `Vector3.normalize`: `length || 1`. -/
noncomputable def normDivisor (v : ℝ × ℝ × ℝ) : ℝ :=
  if vlength v = 0 then 1 else vlength v

/-- three.js `Vector3.normalize`: `divideScalar (length || 1)`. -/
noncomputable def vnormalize (v : ℝ × ℝ × ℝ) : ℝ × ℝ × ℝ :=
  (v.1 / normDivisor v, v.2.1 / normDivisor v, v.2.2 / normDivisor v)

/-- `next - current` for segment `i` (the argument of the first
`normalize`).  Out-of-range accesses default to the origin; the loop only
uses `i < points.length - 1`, where both reads are in range. -/
noncomputable def segRawDir (points : List (ℝ × ℝ × ℝ)) (i : ℕ) : ℝ × ℝ × ℝ :=
  let current := points.getD i (0, 0, 0)
  let next := points.getD (i + 1) (0, 0, 0)
  (next.1 - current.1, next.2.1 - current.2.1, next.2.2 - current.2.2)

/-- `direction` for segment `i`. -/
noncomputable def segDirection (points : List (ℝ × ℝ × ℝ)) (i : ℕ) : ℝ × ℝ × ℝ :=
  vnormalize (segRawDir points i)

/-- `(-direction.z, 0, direction.x)` (the argument of the second
`normalize`). -/
noncomputable def segRawPerp (points : List (ℝ × ℝ × ℝ)) (i : ℕ) : ℝ × ℝ × ℝ :=
  (-(segDirection points i).2.2, 0, (segDirection points i).1)

/-- `perpendicular` for segment `i`. -/
noncomputable def segPerpendicular (points : List (ℝ × ℝ × ℝ)) (i : ℕ) : ℝ × ℝ × ℝ :=
  vnormalize (segRawPerp points i)

/-- The six writes of iteration `i` into the `positions` array. -/
noncomputable def segmentWrite (points : List (ℝ × ℝ × ℝ)) (lineWidths : List ℝ)
    (i : ℕ) (a : ℕ → ℝ) : ℕ → ℝ :=
  let current := points.getD i (0, 0, 0)
  let perpendicular := segPerpendicular points i
  let width := lineWidths.getD i 0 * 0.1
  fun j =>
    if j = i * 6 then current.1 + perpendicular.1 * width
    else if j = i * 6 + 1 then current.2.1
    else if j = i * 6 + 2 then current.2.2 + perpendicular.2.2 * width
    else if j = i * 6 + 3 then current.1 - perpendicular.1 * width
    else if j = i * 6 + 4 then current.2.1
    else if j = i * 6 + 5 then current.2.2 - perpendicular.2.2 * width
    else a j

/-- The six writes of iteration `i` into the `vertexColors` array. -/
noncomputable def colorWrite (colors : List (ℝ × ℝ × ℝ)) (i : ℕ) (a : ℕ → ℝ) :
    ℕ → ℝ :=
  let c := colors.getD i (0, 0, 0)
  fun j =>
    if j = i * 6 then c.1
    else if j = i * 6 + 1 then c.2.1
    else if j = i * 6 + 2 then c.2.2
    else if j = i * 6 + 3 then c.1
    else if j = i * 6 + 4 then c.2.1
    else if j = i * 6 + 5 then c.2.2
    else a j

/-- The single `for` loop of `generateTrailGeometry` that fills both
zero-initialized arrays, iterating `i = 0 .. points.length - 2`. -/
noncomputable def trailArrays (points colors : List (ℝ × ℝ × ℝ))
    (lineWidths : List ℝ) : (ℕ → ℝ) × (ℕ → ℝ) :=
  (List.range (points.length - 1)).foldl
    (fun a i => (segmentWrite points lineWidths i a.1, colorWrite colors i a.2))
    (fun _ => 0, fun _ => 0)

/-- `Float32Array(points.length * 6)`: the allocated length of each
attribute array (two vertices of three entries per sample). -/
def trailArraySize (n : ℕ) : ℕ := n * 6

/-- The index stream of `generateTrailGeometry`: for each segment `i`,
`base = i*2` and the six pushes `base, base+1, base+2, base+2, base+1,
base+3`. -/
def trailIndices (n : ℕ) : List ℕ :=
  (List.range (n - 1)).foldl
    (fun acc i =>
      acc ++ [i * 2, i * 2 + 1, i * 2 + 2, i * 2 + 2, i * 2 + 1, i * 2 + 3])
    []

/-- Vertex `v` of an attribute array: entries `3v, 3v+1, 3v+2`. -/
def vertexOf (a : ℕ → ℝ) (v : ℕ) : ℝ × ℝ × ℝ :=
  (a (3 * v), a (3 * v + 1), a (3 * v + 2))

/-- Componentwise difference of two embedded 3-vectors. -/
def vsub (u v : ℝ × ℝ × ℝ) : ℝ × ℝ × ℝ :=
  (u.1 - v.1, u.2.1 - v.2.1, u.2.2 - v.2.2)

/-- Cross product; a triangle `A B C` is degenerate (zero area) exactly when
`cross (B - A) (C - A) = 0`. -/
def cross (u v : ℝ × ℝ × ℝ) : ℝ × ℝ × ℝ :=
  (u.2.1 * v.2.2 - u.2.2 * v.2.1,
   u.2.2 * v.1 - u.1 * v.2.2,
   u.1 * v.2.1 - u.2.1 * v.1)

/-! ### Trail-buffer claims -/

lemma updateTick_dropLast (prev : List TrailPoint) (now T : ℚ)
    (pos : ℚ × ℚ × ℚ) :
    (updateTick prev now T pos).dropLast
      = (prev.map fun point =>
          { point with
            opacity := max 0 (1 - ((now - point.timestamp) / 1000 - T) / T) }).filter
          (fun point => decide ((now - point.timestamp) / 1000 ≤ T * 2)) := by
  unfold updateTick
  rw [List.dropLast_concat]

/-- C1: on a trail-enabled tick, every sample retained from the previous
buffer has its opacity recomputed as
`max 0 (1 - ((now - capturedAt)/1000 - period) / period)` with the period of
the currently active selector, and it originates from a previous sample
whose position and timestamp it keeps. -/
theorem trail_tick_recomputes_every_sample (ty : OrbitType) (orb : String)
    (prev : List TrailPoint) (now : ℚ) (pos : ℚ × ℚ × ℚ) :
    ∀ q ∈ (updateTick prev now (calculateOrbitPeriod ty orb) pos).dropLast,
      q.opacity = max 0 (1 - ((now - q.timestamp) / 1000 - calculateOrbitPeriod ty orb)
        / calculateOrbitPeriod ty orb) ∧
      ∃ p ∈ prev, q.position = p.position ∧ q.timestamp = p.timestamp := by
  intro q hq
  rw [updateTick_dropLast] at hq
  obtain ⟨hmem, -⟩ := List.mem_filter.mp hq
  obtain ⟨p, hp, rfl⟩ := List.mem_map.mp hmem
  exact ⟨rfl, p, hp, rfl, rfl⟩

/-- Witness for C1: one second after recording a sample under the `l1`
selector (period 60 s), the tick recomputes its opacity to `119/60`. -/
theorem trail_tick_recomputes_every_sample_witness :
    (⟨(0, 0, 0), 0, 119 / 60⟩ : TrailPoint) ∈
        (updateTick [⟨(0, 0, 0), 0, 1⟩] 1000
          (calculateOrbitPeriod OrbitType.lagrange "l1") (1, 1, 1)).dropLast ∧
      ((⟨(0, 0, 0), 0, 119 / 60⟩ : TrailPoint).opacity
          = max 0 (1 - ((1000 - (⟨(0, 0, 0), 0, 119 / 60⟩ : TrailPoint).timestamp) / 1000
              - calculateOrbitPeriod OrbitType.lagrange "l1")
            / calculateOrbitPeriod OrbitType.lagrange "l1") ∧
        ∃ p ∈ [(⟨(0, 0, 0), 0, 1⟩ : TrailPoint)],
          (⟨(0, 0, 0), 0, 119 / 60⟩ : TrailPoint).position = p.position ∧
          (⟨(0, 0, 0), 0, 119 / 60⟩ : TrailPoint).timestamp = p.timestamp) := by
  have hmem : (⟨(0, 0, 0), 0, 119 / 60⟩ : TrailPoint) ∈
      (updateTick [⟨(0, 0, 0), 0, 1⟩] 1000
        (calculateOrbitPeriod OrbitType.lagrange "l1") (1, 1, 1)).dropLast := by
    norm_num [updateTick, calculateOrbitPeriod]
  exact ⟨hmem,
    trail_tick_recomputes_every_sample OrbitType.lagrange "l1"
      [⟨(0, 0, 0), 0, 1⟩] 1000 (1, 1, 1) _ hmem⟩

/-- C2 counterexample: one second (far below the 60 s period) after
recording, the retained sample's recomputed opacity is `119/60`, which is
strictly greater than `1` — so opacity does not lie in `[0,1]` and does not
stay at `1.0` while the age is below one period. -/
theorem trail_opacity_above_one :
    (⟨(0, 0, 0), 0, 119 / 60⟩ : TrailPoint) ∈
        updateTick [⟨(0, 0, 0), 0, 1⟩] 1000
          (calculateOrbitPeriod OrbitType.lagrange "l1") (1, 1, 1) ∧
      (1 : ℚ) < 119 / 60 := by
  constructor
  · norm_num [updateTick, calculateOrbitPeriod]
  · norm_num

/-- C2 amended: every sample's opacity lies in `[0, 2]` (not `[0, 1]`); the
newly appended sample has opacity `1`; a retained sample's opacity equals
`max 0 (2 - age/period)`, hence exceeds `1` while its age is below one
period, equals `1` at exactly one period, and is `0` from two periods on. -/
theorem trail_opacity_range_amended (prev : List TrailPoint) (now T : ℚ)
    (pos : ℚ × ℚ × ℚ) (hT : 0 < T) (hts : ∀ p ∈ prev, p.timestamp ≤ now) :
    (∀ q ∈ updateTick prev now T pos, 0 ≤ q.opacity ∧ q.opacity ≤ 2) ∧
    (updateTick prev now T pos).getLast? = some ⟨pos, now, 1⟩ ∧
    ∀ q ∈ (updateTick prev now T pos).dropLast,
      q.opacity = max 0 (2 - (now - q.timestamp) / 1000 / T) ∧
      ((now - q.timestamp) / 1000 < T → 1 < q.opacity) ∧
      ((now - q.timestamp) / 1000 = T → q.opacity = 1) ∧
      (2 * T ≤ (now - q.timestamp) / 1000 → q.opacity = 0) := by
  have hT0 : T ≠ 0 := ne_of_gt hT
  have hrw : ∀ a : ℚ, 1 - (a - T) / T = 2 - a / T := by
    intro a; field_simp; ring
  refine ⟨?_, ?_, ?_⟩
  · intro q hq
    unfold updateTick at hq
    rcases List.mem_append.mp hq with hq | hq
    · obtain ⟨hmem, -⟩ := List.mem_filter.mp hq
      obtain ⟨p, hp, rfl⟩ := List.mem_map.mp hmem
      dsimp only
      have hage : 0 ≤ (now - p.timestamp) / 1000 / T :=
        div_nonneg (div_nonneg (by linarith [hts p hp]) (by norm_num)) (le_of_lt hT)
      constructor
      · exact le_max_left 0 _
      · rw [hrw]
        exact max_le (by norm_num) (by linarith)
    · simp only [List.mem_singleton] at hq
      subst hq
      norm_num
  · unfold updateTick
    rw [List.getLast?_concat]
  · intro q hq
    rw [updateTick_dropLast] at hq
    obtain ⟨hmem, -⟩ := List.mem_filter.mp hq
    obtain ⟨p, hp, rfl⟩ := List.mem_map.mp hmem
    dsimp only
    have hage : 0 ≤ (now - p.timestamp) / 1000 :=
      div_nonneg (by linarith [hts p hp]) (by norm_num)
    rw [hrw]
    refine ⟨rfl, ?_, ?_, ?_⟩
    · intro hlt
      have h1 : (now - p.timestamp) / 1000 / T < 1 := (div_lt_one hT).mpr hlt
      have h2 : (1 : ℚ) < 2 - (now - p.timestamp) / 1000 / T := by linarith
      calc (1 : ℚ) < 2 - (now - p.timestamp) / 1000 / T := h2
        _ ≤ max 0 (2 - (now - p.timestamp) / 1000 / T) := le_max_right 0 _
    · intro heq
      rw [heq, div_self hT0]
      norm_num
    · intro hge
      have h2 : 2 ≤ (now - p.timestamp) / 1000 / T := (le_div_iff₀ hT).mpr (by linarith)
      exact max_eq_left (by linarith)

/-- Witness for C2 amended: a sample of age 90 s under period 60 s has
recomputed opacity `max 0 (2 - 90/60) = 1/2`. -/
theorem trail_opacity_range_amended_witness :
    ((0 : ℚ) < 60 ∧ ∀ p ∈ [(⟨(0, 0, 0), 0, 1⟩ : TrailPoint)], p.timestamp ≤ 90000) ∧
    ((∀ q ∈ updateTick [⟨(0, 0, 0), 0, 1⟩] 90000 60 (1, 1, 1),
        0 ≤ q.opacity ∧ q.opacity ≤ 2) ∧
      (updateTick [⟨(0, 0, 0), 0, 1⟩] 90000 60 (1, 1, 1)).getLast?
        = some ⟨(1, 1, 1), 90000, 1⟩ ∧
      ∀ q ∈ (updateTick [⟨(0, 0, 0), 0, 1⟩] 90000 60 (1, 1, 1)).dropLast,
        q.opacity = max 0 (2 - (90000 - q.timestamp) / 1000 / 60) ∧
        ((90000 - q.timestamp) / 1000 < 60 → 1 < q.opacity) ∧
        ((90000 - q.timestamp) / 1000 = 60 → q.opacity = 1) ∧
        (2 * 60 ≤ (90000 - q.timestamp) / 1000 → q.opacity = 0)) :=
  ⟨⟨by norm_num, by norm_num⟩,
    trail_opacity_range_amended [⟨(0, 0, 0), 0, 1⟩] 90000 60 (1, 1, 1)
      (by norm_num) (by norm_num)⟩

/-- C4 counterexample: at the tick at `t = t0 + 2·period` exactly (the
sample's age in seconds equals twice the period), the sample is still in the
buffer (with opacity 0), because the eviction filter keeps ages `≤ 2·period`
rather than `< 2·period`. -/
theorem trail_sample_kept_at_exact_double_period :
    (⟨(0, 0, 0), 0, 0⟩ : TrailPoint) ∈
        updateTick [⟨(0, 0, 0), 0, 1⟩] 120000
          (calculateOrbitPeriod OrbitType.lagrange "l1") (1, 1, 1) ∧
      ((120000 : ℚ) - 0) / 1000 = 2 * calculateOrbitPeriod OrbitType.lagrange "l1" := by
  constructor
  · norm_num [updateTick, calculateOrbitPeriod]
  · norm_num [calculateOrbitPeriod]

/-- C4 amended: after each tick every sample in the buffer has age at most
twice the current period, and a previous sample whose age strictly exceeds
twice the period leaves no sample with its timestamp in the buffer. -/
theorem trail_age_bound_amended (prev : List TrailPoint) (now T : ℚ)
    (pos : ℚ × ℚ × ℚ) (hT : 0 ≤ T) :
    (∀ q ∈ updateTick prev now T pos, (now - q.timestamp) / 1000 ≤ T * 2) ∧
    ∀ p ∈ prev, T * 2 < (now - p.timestamp) / 1000 →
      ∀ q ∈ updateTick prev now T pos, q.timestamp ≠ p.timestamp := by
  constructor
  · intro q hq
    unfold updateTick at hq
    rcases List.mem_append.mp hq with hq | hq
    · obtain ⟨-, hkeep⟩ := List.mem_filter.mp hq
      exact of_decide_eq_true hkeep
    · simp only [List.mem_singleton] at hq
      subst hq
      simp only [sub_self, zero_div]
      positivity
  · intro p hp hold q hq hts
    unfold updateTick at hq
    rcases List.mem_append.mp hq with hq | hq
    · obtain ⟨-, hkeep⟩ := List.mem_filter.mp hq
      have := of_decide_eq_true hkeep
      rw [hts] at this
      linarith
    · simp only [List.mem_singleton] at hq
      subst hq
      simp only at hts
      rw [hts] at hold
      simp only [sub_self, zero_div] at hold
      linarith

/-! ### Position-function claims -/

lemma calc_l1_eq (t s : ℝ) :
    calculateNewPosition OrbitType.lagrange "l1" t s =
      (10 * Real.cos (t * BASE_ORBITAL_SPEED * s) * 0.5, 0,
        10 * Real.sin (t * BASE_ORBITAL_SPEED * s) * 0.5) := rfl

lemma calc_llo_circ_eq (t s : ℝ) :
    calculateNewPosition OrbitType.moon "llo_circular" t s =
      (10 * Real.cos (t * BASE_ORBITAL_SPEED * s)
          + Real.cos (t * BASE_ORBITAL_SPEED * s * 5) * 1.5, 0,
        10 * Real.sin (t * BASE_ORBITAL_SPEED * s)
          + Real.sin (t * BASE_ORBITAL_SPEED * s * 5) * 1.5) := rfl

/-- C3 counterexample: for the `l1` trajectory at `t = 0`, `s = 1`, moving
forward by the catalog period (60 s = 60000 ms at `s = 1`) changes the
z-coordinate by more than 1 world unit (from `0` to `5·sin 6 ≈ -1.4`), so
`position(t)` and `position(t + period/s)` are not equal within any
floating-point tolerance: the angle advances by `6 rad`, not `2π`. -/
theorem l1_not_periodic_at_catalog_period :
    (calculateNewPosition OrbitType.lagrange "l1" (0 + 60000 / 1) 1).2.2 <
      (calculateNewPosition OrbitType.lagrange "l1" 0 1).2.2 - 1 := by
  rw [calc_l1_eq, calc_l1_eq]
  have h6 : ((0:ℝ) + 60000 / 1) * BASE_ORBITAL_SPEED * 1 = 6 := by
    norm_num [BASE_ORBITAL_SPEED]
  have h0 : (0:ℝ) * BASE_ORBITAL_SPEED * 1 = 0 := by ring
  rw [h6, h0, Real.sin_zero]
  have hpi1 := Real.pi_gt_d6
  have hpi2 := Real.pi_lt_d6
  have hu0 : (0:ℝ) < 2 * Real.pi - 6 := by norm_num at hpi1 ⊢; linarith
  have hu1 : 2 * Real.pi - 6 ≤ 1 := by norm_num at hpi2 ⊢; linarith
  have hsin := Real.sin_gt_sub_cube hu0 hu1
  have hrw : Real.sin 6 = -Real.sin (2 * Real.pi - 6) := by
    rw [Real.sin_sub, Real.sin_two_pi, Real.cos_two_pi]
    ring
  have hub : 2 * Real.pi - 6 < 0.283186 := by norm_num at hpi2 ⊢; linarith
  have hlb : (0.283184:ℝ) < 2 * Real.pi - 6 := by norm_num at hpi1 ⊢; linarith
  have hcube : (2 * Real.pi - 6) ^ 3 < 0.023 := by
    have h1 : (2 * Real.pi - 6) ^ 3 < (0.283186:ℝ) ^ 3 :=
      pow_lt_pow_left₀ hub (le_of_lt hu0) (by norm_num)
    have h2 : ((0.283186:ℝ)) ^ 3 < 0.023 := by norm_num
    linarith
  have hq : (1:ℝ)/4 < Real.sin (2 * Real.pi - 6) := by nlinarith
  dsimp only
  nlinarith [hq, hrw]

/-- C3 amended: the `l1` trajectory is exactly periodic in `elapsedTime`
(milliseconds) with period `2π / (BASE_ORBITAL_SPEED · s) = 20000π/s ms`
(`≈ 62.83 s` at `s = 1`), not the catalog's `60/s` seconds. -/
theorem l1_periodic_exact (t s : ℝ) (hs : 0.1 ≤ s ∧ s ≤ 10) :
    calculateNewPosition OrbitType.lagrange "l1" (t + 20000 * Real.pi / s) s =
      calculateNewPosition OrbitType.lagrange "l1" t s := by
  have hs0 : s ≠ 0 := by
    have h : (0:ℝ) < s := lt_of_lt_of_le (by norm_num) hs.1
    exact ne_of_gt h
  have hB : BASE_ORBITAL_SPEED = 1 / 10000 := by norm_num [BASE_ORBITAL_SPEED]
  have key : (t + 20000 * Real.pi / s) * BASE_ORBITAL_SPEED * s
      = t * BASE_ORBITAL_SPEED * s + 2 * Real.pi := by
    rw [hB]; field_simp; ring
  rw [calc_l1_eq, calc_l1_eq, key, Real.cos_add_two_pi, Real.sin_add_two_pi]

/-- Witness for C3 amended, at `t = 0`, `s = 1`. -/
theorem l1_periodic_exact_witness :
    ((0.1:ℝ) ≤ 1 ∧ (1:ℝ) ≤ 10) ∧
      calculateNewPosition OrbitType.lagrange "l1" (0 + 20000 * Real.pi / 1) 1 =
        calculateNewPosition OrbitType.lagrange "l1" 0 1 :=
  ⟨⟨by norm_num, by norm_num⟩,
    l1_periodic_exact 0 1 ⟨by norm_num, by norm_num⟩⟩

/-- C5: an unrecognized `specificId` in the lagrange family yields the fixed
fallback `(5,0,0)`; the non-family selector value `none` yields the same
single fixed fallback point; an unrecognized id in the earth family yields
the fixed `(4,0,0)`; and an unrecognized id in the moon family yields the
moon's live position plus the fixed offset `(1.5, 0, 0)`. -/
theorem fallback_positions (t s : ℝ) (orb : String)
    (hl : orb ∉ (["l1", "l2", "l3", "l4", "l5", "l1_halo", "l2_halo",
      "l3_halo", "l4_lissajous", "l5_lissajous"] : List String))
    (he : orb ∉ (["geo", "gso_equator"] : List String))
    (hm : orb ∉ (["llo_circular", "llo_elliptical", "llo_polar", "frozen",
      "transfer", "distant"] : List String)) :
    calculateNewPosition OrbitType.lagrange orb t s = (5, 0, 0) ∧
    calculateNewPosition OrbitType.none orb t s = (5, 0, 0) ∧
    calculateNewPosition OrbitType.earth orb t s = (4, 0, 0) ∧
    calculateNewPosition OrbitType.moon orb t s =
      ((moonPosition t s).1 + 1.5, (moonPosition t s).2.1, (moonPosition t s).2.2) := by
  refine ⟨?_, rfl, ?_, ?_⟩
  · simp only [calculateNewPosition]
    split <;> simp_all
  · simp only [calculateNewPosition]
    split <;> simp_all
  · simp only [calculateNewPosition, moonPosition]
    split <;> simp_all

/-- Witness for C5: the spec's own probe `position("lagrange",
"nonexistent", t, 1)`, at `t = 0`. -/
theorem fallback_positions_witness :
    (("nonexistent" ∉ (["l1", "l2", "l3", "l4", "l5", "l1_halo", "l2_halo",
        "l3_halo", "l4_lissajous", "l5_lissajous"] : List String)) ∧
      ("nonexistent" ∉ (["geo", "gso_equator"] : List String)) ∧
      ("nonexistent" ∉ (["llo_circular", "llo_elliptical", "llo_polar",
        "frozen", "transfer", "distant"] : List String))) ∧
    (calculateNewPosition OrbitType.lagrange "nonexistent" 0 1 = (5, 0, 0) ∧
      calculateNewPosition OrbitType.none "nonexistent" 0 1 = (5, 0, 0) ∧
      calculateNewPosition OrbitType.earth "nonexistent" 0 1 = (4, 0, 0) ∧
      calculateNewPosition OrbitType.moon "nonexistent" 0 1 =
        ((moonPosition 0 1).1 + 1.5, (moonPosition 0 1).2.1, (moonPosition 0 1).2.2)) :=
  ⟨⟨by decide, by decide, by decide⟩,
    fallback_positions 0 1 "nonexistent" (by decide) (by decide) (by decide)⟩

/-- C6: subtracting the `llo_circular` trajectory's own local-loop offset
(radius 1.5 at local angle `5·angle`) from its returned position gives
exactly the Moon's computed position, in each coordinate — both are derived
from the same angle in the same evaluation. -/
theorem moon_llo_phase_consistency (t s : ℝ) :
    (calculateNewPosition OrbitType.moon "llo_circular" t s).1
        - Real.cos (t * BASE_ORBITAL_SPEED * s * 5) * 1.5 = (moonPosition t s).1 ∧
    (calculateNewPosition OrbitType.moon "llo_circular" t s).2.1 = (moonPosition t s).2.1 ∧
    (calculateNewPosition OrbitType.moon "llo_circular" t s).2.2
        - Real.sin (t * BASE_ORBITAL_SPEED * s * 5) * 1.5 = (moonPosition t s).2.2 := by
  refine ⟨?_, ?_, ?_⟩ <;>
    · rw [calc_llo_circ_eq]
      simp only [moonPosition]
      try ring

/-- C7: the four cataloged Earth-synchronous ids `gso_mid`, `qzo_8`,
`qzo_asym` and `molniya` are not implemented in `calculateNewPosition`; all
four fall through to the same constant fallback `(4,0,0)`, so they are
neither distinct from one another nor non-constant. -/
theorem earth_orbits_collapse_to_constant (t s : ℝ) :
    calculateNewPosition OrbitType.earth "gso_mid" t s = (4, 0, 0) ∧
    calculateNewPosition OrbitType.earth "qzo_8" t s = (4, 0, 0) ∧
    calculateNewPosition OrbitType.earth "qzo_asym" t s = (4, 0, 0) ∧
    calculateNewPosition OrbitType.earth "molniya" t s = (4, 0, 0) :=
  ⟨rfl, rfl, rfl, rfl⟩

/-- Witness for C4 amended: a concrete tick with period 60 s. -/
theorem trail_age_bound_amended_witness :
    (0 : ℚ) ≤ 60 ∧
    ((∀ q ∈ updateTick [⟨(0, 0, 0), 0, 1⟩] 121000 60 (1, 1, 1),
        ((121000 : ℚ) - q.timestamp) / 1000 ≤ 60 * 2) ∧
      ∀ p ∈ [(⟨(0, 0, 0), 0, 1⟩ : TrailPoint)],
        (60 : ℚ) * 2 < (121000 - p.timestamp) / 1000 →
        ∀ q ∈ updateTick [⟨(0, 0, 0), 0, 1⟩] 121000 60 (1, 1, 1),
          q.timestamp ≠ p.timestamp) :=
  ⟨by norm_num,
    trail_age_bound_amended [⟨(0, 0, 0), 0, 1⟩] 121000 60 (1, 1, 1) (by norm_num)⟩

/-! ### Ribbon-builder claims -/

lemma segmentWrite_apply_of_lt (points : List (ℝ × ℝ × ℝ)) (lineWidths : List ℝ)
    (i : ℕ) (a : ℕ → ℝ) (j : ℕ) (h : i * 6 + 5 < j) :
    segmentWrite points lineWidths i a j = a j := by
  simp only [segmentWrite]
  rw [if_neg (by omega), if_neg (by omega), if_neg (by omega), if_neg (by omega),
    if_neg (by omega), if_neg (by omega)]

lemma colorWrite_apply_of_lt (colors : List (ℝ × ℝ × ℝ))
    (i : ℕ) (a : ℕ → ℝ) (j : ℕ) (h : i * 6 + 5 < j) :
    colorWrite colors i a j = a j := by
  simp only [colorWrite]
  rw [if_neg (by omega), if_neg (by omega), if_neg (by omega), if_neg (by omega),
    if_neg (by omega), if_neg (by omega)]

lemma trailWrites_preserve (points colors : List (ℝ × ℝ × ℝ)) (lineWidths : List ℝ)
    (L : List ℕ) (j : ℕ) (h : ∀ i ∈ L, i * 6 + 5 < j) (a : (ℕ → ℝ) × (ℕ → ℝ)) :
    ((L.foldl (fun acc i =>
        (segmentWrite points lineWidths i acc.1, colorWrite colors i acc.2)) a).1 j = a.1 j ∧
      (L.foldl (fun acc i =>
        (segmentWrite points lineWidths i acc.1, colorWrite colors i acc.2)) a).2 j = a.2 j) := by
  induction L generalizing a with
  | nil => exact ⟨rfl, rfl⟩
  | cons i L IH =>
    simp only [List.foldl_cons]
    have hi : i * 6 + 5 < j := h i (by simp)
    have IH' := IH (fun k hk => h k (by simp [hk]))
      (segmentWrite points lineWidths i a.1, colorWrite colors i a.2)
    refine ⟨?_, ?_⟩
    · rw [IH'.1]
      exact segmentWrite_apply_of_lt points lineWidths i a.1 j hi
    · rw [IH'.2]
      exact colorWrite_apply_of_lt colors i a.2 j hi

/-- The loop never writes at or beyond offset `6·(points.length - 1)`: those
entries keep the `Float32Array`'s zero initialization. -/
lemma trailArrays_zero_of_ge (points colors : List (ℝ × ℝ × ℝ)) (lineWidths : List ℝ)
    (j : ℕ) (h : 6 * (points.length - 1) ≤ j) :
    (trailArrays points colors lineWidths).1 j = 0 ∧
      (trailArrays points colors lineWidths).2 j = 0 := by
  unfold trailArrays
  exact trailWrites_preserve points colors lineWidths (List.range (points.length - 1)) j
    (fun i hi => by simp only [List.mem_range] at hi; omega) (fun _ => 0, fun _ => 0)

lemma trailIndices_decomp (n : ℕ) (h : 2 ≤ n) :
    trailIndices n = trailIndices (n - 1) ++
      [(n - 2) * 2, (n - 2) * 2 + 1, (n - 2) * 2 + 2,
        (n - 2) * 2 + 2, (n - 2) * 2 + 1, (n - 2) * 2 + 3] := by
  unfold trailIndices
  have h1 : n - 1 = (n - 2) + 1 := by omega
  rw [h1, List.range_succ, List.foldl_append]
  simp [Nat.add_sub_cancel]

lemma normDivisor_ne_zero (v : ℝ × ℝ × ℝ) : normDivisor v ≠ 0 := by
  unfold normDivisor
  split
  · norm_num
  · assumption

lemma vnormalize_zero : vnormalize ((0:ℝ), (0:ℝ), (0:ℝ)) = (0, 0, 0) := by
  simp [vnormalize]

/-- C8 counterexample: for 3 samples the builder's index stream has 12
entries (two triangles for each of the two segments), not 6. -/
theorem trail_three_points_not_six_indices :
    (trailIndices 3).length = 12 ∧ (trailIndices 3).length ≠ 6 := by decide

/-- C8 amended: for every 3-sample input the builder allocates 18 array
entries (6 vertices) and emits 12 indices — two triangles per segment, four
in total; the two vertices of the last sample (vertices 4 and 5) are never
written and stay at the origin, so the final triangle `(4, 3, 5)` of the
index stream has two coincident vertices and therefore zero area. -/
theorem trail_three_samples_geometry_amended (points colors : List (ℝ × ℝ × ℝ))
    (lineWidths : List ℝ) (h3 : points.length = 3) :
    trailArraySize points.length = 18 ∧
    (trailIndices points.length).length = 12 ∧
    vertexOf (trailArrays points colors lineWidths).1 4 = (0, 0, 0) ∧
    vertexOf (trailArrays points colors lineWidths).1 5 = (0, 0, 0) ∧
    cross (vsub (vertexOf (trailArrays points colors lineWidths).1 3)
        (vertexOf (trailArrays points colors lineWidths).1 4))
      (vsub (vertexOf (trailArrays points colors lineWidths).1 5)
        (vertexOf (trailArrays points colors lineWidths).1 4)) = (0, 0, 0) := by
  have hz : ∀ j, 12 ≤ j → (trailArrays points colors lineWidths).1 j = 0 :=
    fun j hj =>
      (trailArrays_zero_of_ge points colors lineWidths j (by rw [h3]; omega)).1
  have h4 : vertexOf (trailArrays points colors lineWidths).1 4 = (0, 0, 0) := by
    simp only [vertexOf]
    exact Prod.ext (hz _ (by norm_num)) (Prod.ext (hz _ (by norm_num)) (hz _ (by norm_num)))
  have h5 : vertexOf (trailArrays points colors lineWidths).1 5 = (0, 0, 0) := by
    simp only [vertexOf]
    exact Prod.ext (hz _ (by norm_num)) (Prod.ext (hz _ (by norm_num)) (hz _ (by norm_num)))
  refine ⟨by rw [h3]; rfl, by rw [h3]; decide, h4, h5, ?_⟩
  rw [h4, h5]
  simp only [cross, vsub]
  norm_num

/-- Witness for C8 amended: three collinear samples along the x-axis. -/
theorem trail_three_samples_geometry_amended_witness :
    ([((0:ℝ), (0:ℝ), (0:ℝ)), ((1:ℝ), (0:ℝ), (0:ℝ)), ((2:ℝ), (0:ℝ), (0:ℝ))] :
        List (ℝ × ℝ × ℝ)).length = 3 ∧
    (trailArraySize ([((0:ℝ), (0:ℝ), (0:ℝ)), ((1:ℝ), (0:ℝ), (0:ℝ)),
        ((2:ℝ), (0:ℝ), (0:ℝ))] : List (ℝ × ℝ × ℝ)).length = 18 ∧
      (trailIndices ([((0:ℝ), (0:ℝ), (0:ℝ)), ((1:ℝ), (0:ℝ), (0:ℝ)),
        ((2:ℝ), (0:ℝ), (0:ℝ))] : List (ℝ × ℝ × ℝ)).length).length = 12 ∧
      vertexOf (trailArrays [((0:ℝ), (0:ℝ), (0:ℝ)), ((1:ℝ), (0:ℝ), (0:ℝ)), ((2:ℝ), (0:ℝ), (0:ℝ))]
        [((1:ℝ), (1:ℝ), (1:ℝ)), ((1:ℝ), (1:ℝ), (1:ℝ)), ((1:ℝ), (1:ℝ), (1:ℝ))]
        [(1:ℝ), (1:ℝ), (1:ℝ)]).1 4 = (0, 0, 0) ∧
      vertexOf (trailArrays [((0:ℝ), (0:ℝ), (0:ℝ)), ((1:ℝ), (0:ℝ), (0:ℝ)), ((2:ℝ), (0:ℝ), (0:ℝ))]
        [((1:ℝ), (1:ℝ), (1:ℝ)), ((1:ℝ), (1:ℝ), (1:ℝ)), ((1:ℝ), (1:ℝ), (1:ℝ))]
        [(1:ℝ), (1:ℝ), (1:ℝ)]).1 5 = (0, 0, 0) ∧
      cross (vsub (vertexOf (trailArrays [((0:ℝ), (0:ℝ), (0:ℝ)), ((1:ℝ), (0:ℝ), (0:ℝ)), ((2:ℝ), (0:ℝ), (0:ℝ))]
            [((1:ℝ), (1:ℝ), (1:ℝ)), ((1:ℝ), (1:ℝ), (1:ℝ)), ((1:ℝ), (1:ℝ), (1:ℝ))]
            [(1:ℝ), (1:ℝ), (1:ℝ)]).1 3)
          (vertexOf (trailArrays [((0:ℝ), (0:ℝ), (0:ℝ)), ((1:ℝ), (0:ℝ), (0:ℝ)), ((2:ℝ), (0:ℝ), (0:ℝ))]
            [((1:ℝ), (1:ℝ), (1:ℝ)), ((1:ℝ), (1:ℝ), (1:ℝ)), ((1:ℝ), (1:ℝ), (1:ℝ))]
            [(1:ℝ), (1:ℝ), (1:ℝ)]).1 4))
        (vsub (vertexOf (trailArrays [((0:ℝ), (0:ℝ), (0:ℝ)), ((1:ℝ), (0:ℝ), (0:ℝ)), ((2:ℝ), (0:ℝ), (0:ℝ))]
            [((1:ℝ), (1:ℝ), (1:ℝ)), ((1:ℝ), (1:ℝ), (1:ℝ)), ((1:ℝ), (1:ℝ), (1:ℝ))]
            [(1:ℝ), (1:ℝ), (1:ℝ)]).1 5)
          (vertexOf (trailArrays [((0:ℝ), (0:ℝ), (0:ℝ)), ((1:ℝ), (0:ℝ), (0:ℝ)), ((2:ℝ), (0:ℝ), (0:ℝ))]
            [((1:ℝ), (1:ℝ), (1:ℝ)), ((1:ℝ), (1:ℝ), (1:ℝ)), ((1:ℝ), (1:ℝ), (1:ℝ))]
            [(1:ℝ), (1:ℝ), (1:ℝ)]).1 4)) = (0, 0, 0)) :=
  ⟨rfl,
    trail_three_samples_geometry_amended
      [((0:ℝ), (0:ℝ), (0:ℝ)), ((1:ℝ), (0:ℝ), (0:ℝ)), ((2:ℝ), (0:ℝ), (0:ℝ))]
      [((1:ℝ), (1:ℝ), (1:ℝ)), ((1:ℝ), (1:ℝ), (1:ℝ)), ((1:ℝ), (1:ℝ), (1:ℝ))]
      [(1:ℝ), (1:ℝ), (1:ℝ)] rfl⟩

/-- C9: neither normalization in the builder can divide by zero — three.js's
`normalize` divides by `length || 1` — and for a degenerate segment (two
consecutive samples at the same position) the normalized direction and
perpendicular are the zero vector, so the two emitted vertices coincide with
the sample position itself: every emitted value is a plain finite real, and
no NaN can arise. -/
theorem trail_normalize_never_divides_by_zero (points : List (ℝ × ℝ × ℝ))
    (lineWidths : List ℝ) (i : ℕ) (a : ℕ → ℝ) :
    normDivisor (segRawDir points i) ≠ 0 ∧
    normDivisor (segRawPerp points i) ≠ 0 ∧
    (points.getD i (0, 0, 0) = points.getD (i + 1) (0, 0, 0) →
      segDirection points i = (0, 0, 0) ∧
      segPerpendicular points i = (0, 0, 0) ∧
      segmentWrite points lineWidths i a (i * 6) = (points.getD i (0, 0, 0)).1 ∧
      segmentWrite points lineWidths i a (i * 6 + 1) = (points.getD i (0, 0, 0)).2.1 ∧
      segmentWrite points lineWidths i a (i * 6 + 2) = (points.getD i (0, 0, 0)).2.2 ∧
      segmentWrite points lineWidths i a (i * 6 + 3) = (points.getD i (0, 0, 0)).1 ∧
      segmentWrite points lineWidths i a (i * 6 + 5) = (points.getD i (0, 0, 0)).2.2) := by
  refine ⟨normDivisor_ne_zero _, normDivisor_ne_zero _, ?_⟩
  intro hdeg
  have hraw : segRawDir points i = (0, 0, 0) := by
    simp only [segRawDir]
    rw [hdeg]
    simp
  have hdir : segDirection points i = (0, 0, 0) := by
    rw [segDirection, hraw, vnormalize_zero]
  have hperp : segPerpendicular points i = (0, 0, 0) := by
    rw [segPerpendicular, segRawPerp, hdir]
    simpa using vnormalize_zero
  refine ⟨hdir, hperp, ?_, ?_, ?_, ?_, ?_⟩ <;>
    · simp only [segmentWrite, hperp]
      norm_num

/-- Witness for C9: two consecutive samples at the same position. -/
theorem trail_normalize_never_divides_by_zero_witness :
    normDivisor (segRawDir [((1:ℝ), (2:ℝ), (3:ℝ)), ((1:ℝ), (2:ℝ), (3:ℝ))] 0) ≠ 0 ∧
    segDirection [((1:ℝ), (2:ℝ), (3:ℝ)), ((1:ℝ), (2:ℝ), (3:ℝ))] 0 = (0, 0, 0) ∧
    segmentWrite [((1:ℝ), (2:ℝ), (3:ℝ)), ((1:ℝ), (2:ℝ), (3:ℝ))] [(1:ℝ)] 0 (fun _ => 0) 0
      = (([((1:ℝ), (2:ℝ), (3:ℝ)), ((1:ℝ), (2:ℝ), (3:ℝ))] : List (ℝ × ℝ × ℝ)).getD 0 (0, 0, 0)).1 := by
  have h := trail_normalize_never_divides_by_zero
    [((1:ℝ), (2:ℝ), (3:ℝ)), ((1:ℝ), (2:ℝ), (3:ℝ))] [(1:ℝ)] 0 (fun _ => 0)
  exact ⟨h.1, (h.2.2 rfl).1, (h.2.2 rfl).2.2.1⟩

/-- C10: for every sample list of length `N ≥ 2`, the two vertices allocated
for the last sample stay `(0,0,0)` in both the position and the color array
(the loop writes only samples `0..N-2`), yet the index stream's final
segment references exactly those two unwritten vertices `2N-2` and `2N-1`:
the emitted ribbon's last triangles extend to the world origin regardless of
the samples' positions. -/
theorem trail_last_sample_vertices_unwritten (points colors : List (ℝ × ℝ × ℝ))
    (lineWidths : List ℝ) (h2 : 2 ≤ points.length) :
    vertexOf (trailArrays points colors lineWidths).1 (2 * points.length - 2) = (0, 0, 0) ∧
    vertexOf (trailArrays points colors lineWidths).1 (2 * points.length - 1) = (0, 0, 0) ∧
    vertexOf (trailArrays points colors lineWidths).2 (2 * points.length - 2) = (0, 0, 0) ∧
    vertexOf (trailArrays points colors lineWidths).2 (2 * points.length - 1) = (0, 0, 0) ∧
    trailIndices points.length = trailIndices (points.length - 1) ++
      [2 * points.length - 4, 2 * points.length - 3, 2 * points.length - 2,
        2 * points.length - 2, 2 * points.length - 3, 2 * points.length - 1] := by
  have hz : ∀ j, 6 * (points.length - 1) ≤ j →
      (trailArrays points colors lineWidths).1 j = 0 ∧
        (trailArrays points colors lineWidths).2 j = 0 :=
    fun j hj => trailArrays_zero_of_ge points colors lineWidths j hj
  refine ⟨?_, ?_, ?_, ?_, ?_⟩
  · simp only [vertexOf]
    exact Prod.ext (hz _ (by omega)).1 (Prod.ext (hz _ (by omega)).1 (hz _ (by omega)).1)
  · simp only [vertexOf]
    exact Prod.ext (hz _ (by omega)).1 (Prod.ext (hz _ (by omega)).1 (hz _ (by omega)).1)
  · simp only [vertexOf]
    exact Prod.ext (hz _ (by omega)).2 (Prod.ext (hz _ (by omega)).2 (hz _ (by omega)).2)
  · simp only [vertexOf]
    exact Prod.ext (hz _ (by omega)).2 (Prod.ext (hz _ (by omega)).2 (hz _ (by omega)).2)
  · rw [trailIndices_decomp points.length h2]
    congr 1
    have e0 : (points.length - 2) * 2 = 2 * points.length - 4 := by omega
    have e1 : (points.length - 2) * 2 + 1 = 2 * points.length - 3 := by omega
    have e2 : (points.length - 2) * 2 + 2 = 2 * points.length - 2 := by omega
    have e3 : (points.length - 2) * 2 + 3 = 2 * points.length - 1 := by omega
    rw [e3, e2, e1, e0]

/-- Witness for C10: a concrete two-sample list. -/
theorem trail_last_sample_vertices_unwritten_witness :
    2 ≤ ([((0:ℝ), (0:ℝ), (0:ℝ)), ((1:ℝ), (0:ℝ), (0:ℝ))] : List (ℝ × ℝ × ℝ)).length ∧
    (vertexOf (trailArrays [((0:ℝ), (0:ℝ), (0:ℝ)), ((1:ℝ), (0:ℝ), (0:ℝ))] [] []).1
        (2 * ([((0:ℝ), (0:ℝ), (0:ℝ)), ((1:ℝ), (0:ℝ), (0:ℝ))] : List (ℝ × ℝ × ℝ)).length - 2) = (0, 0, 0) ∧
      vertexOf (trailArrays [((0:ℝ), (0:ℝ), (0:ℝ)), ((1:ℝ), (0:ℝ), (0:ℝ))] [] []).1
        (2 * ([((0:ℝ), (0:ℝ), (0:ℝ)), ((1:ℝ), (0:ℝ), (0:ℝ))] : List (ℝ × ℝ × ℝ)).length - 1) = (0, 0, 0) ∧
      vertexOf (trailArrays [((0:ℝ), (0:ℝ), (0:ℝ)), ((1:ℝ), (0:ℝ), (0:ℝ))] [] []).2
        (2 * ([((0:ℝ), (0:ℝ), (0:ℝ)), ((1:ℝ), (0:ℝ), (0:ℝ))] : List (ℝ × ℝ × ℝ)).length - 2) = (0, 0, 0) ∧
      vertexOf (trailArrays [((0:ℝ), (0:ℝ), (0:ℝ)), ((1:ℝ), (0:ℝ), (0:ℝ))] [] []).2
        (2 * ([((0:ℝ), (0:ℝ), (0:ℝ)), ((1:ℝ), (0:ℝ), (0:ℝ))] : List (ℝ × ℝ × ℝ)).length - 1) = (0, 0, 0) ∧
      trailIndices ([((0:ℝ), (0:ℝ), (0:ℝ)), ((1:ℝ), (0:ℝ), (0:ℝ))] : List (ℝ × ℝ × ℝ)).length
        = trailIndices (([((0:ℝ), (0:ℝ), (0:ℝ)), ((1:ℝ), (0:ℝ), (0:ℝ))] : List (ℝ × ℝ × ℝ)).length - 1) ++
          [2 * ([((0:ℝ), (0:ℝ), (0:ℝ)), ((1:ℝ), (0:ℝ), (0:ℝ))] : List (ℝ × ℝ × ℝ)).length - 4,
            2 * ([((0:ℝ), (0:ℝ), (0:ℝ)), ((1:ℝ), (0:ℝ), (0:ℝ))] : List (ℝ × ℝ × ℝ)).length - 3,
            2 * ([((0:ℝ), (0:ℝ), (0:ℝ)), ((1:ℝ), (0:ℝ), (0:ℝ))] : List (ℝ × ℝ × ℝ)).length - 2,
            2 * ([((0:ℝ), (0:ℝ), (0:ℝ)), ((1:ℝ), (0:ℝ), (0:ℝ))] : List (ℝ × ℝ × ℝ)).length - 2,
            2 * ([((0:ℝ), (0:ℝ), (0:ℝ)), ((1:ℝ), (0:ℝ), (0:ℝ))] : List (ℝ × ℝ × ℝ)).length - 3,
            2 * ([((0:ℝ), (0:ℝ), (0:ℝ)), ((1:ℝ), (0:ℝ), (0:ℝ))] : List (ℝ × ℝ × ℝ)).length - 1]) :=
  ⟨by norm_num,
    trail_last_sample_vertices_unwritten
      [((0:ℝ), (0:ℝ), (0:ℝ)), ((1:ℝ), (0:ℝ), (0:ℝ))] [] [] (by norm_num)⟩
